import Mathlib

/-!
libndm — `include/ndm/ip_sockaddr.h`
=====================================

A shallow embedding of the socket-address helpers of libndm.

Memory model
------------

`struct ndm_ip_sockaddr_t` is a C union of `struct sockaddr_in`,
`struct sockaddr_in6` and `struct sockaddr_storage`.  An object of that type
is modelled by its object representation: the list of its bytes, whose length
is `sizeof(struct sockaddr_storage)`.  The members of the union are views of
the leading bytes of that list.  The layout is the one of Linux:

| member                     | offset | width |
|----------------------------|--------|-------|
| `ss_family`/`sin_family`/`sin6_family` | 0 | 2 (host byte order) |
| `sin_port`/`sin6_port`     | 2      | 2 (network byte order) |
| `sin_addr`                 | 4      | 4     |
| `sin_zero`                 | 8      | 8     |
| `sin6_flowinfo`            | 4      | 4     |
| `sin6_addr`                | 8      | 16    |
| `sin6_scope_id`            | 24     | 4     |

The byte order of the host is a parameter (`be = true` for a big-endian
host); it only decides how the two bytes of the family field are read.

Assertions
----------

`assert(c)` aborts the process when `c` is false, unless the translation unit
is compiled with `NDEBUG`, in which case it does nothing.  Every function of
the header that contains an `assert` takes the flag `ndebug`.  A function that
returns a value yields `none` on abort; a function that writes through a
pointer yields an `Exec` that records whether it aborted and what the
destination object holds at that point.
-/

namespace Ndm

/-! ## Platform constants -/

/-- One byte of an object representation. -/
abbrev Byte := Fin 256

/-- Address family of IPv4, `AF_INET` of `<sys/socket.h>` (Linux value). -/
def AF_INET : Nat := 2

/-- Address family of IPv6, `AF_INET6` of `<sys/socket.h>` (Linux value). -/
def AF_INET6 : Nat := 10

/-- Protocol domain of IPv4: `ip_sockaddr.h` line 26 defines `PF_INET` as
`AF_INET` when the platform does not, and Linux defines it to that same
value. -/
def PF_INET : Int := AF_INET

/-- Protocol domain of IPv6: `ip_sockaddr.h` line 30 defines `PF_INET6` as
`AF_INET6` when the platform does not, and Linux defines it to that same
value. -/
def PF_INET6 : Int := AF_INET6

/-- Value of `sizeof(struct sockaddr_in)`. -/
abbrev sizeof_sockaddr_in : Nat := 16

/-- Value of `sizeof(struct sockaddr_in6)`. -/
abbrev sizeof_sockaddr_in6 : Nat := 28

/-- Value of `sizeof(struct sockaddr_storage)`. -/
abbrev sizeof_sockaddr_storage : Nat := 128

/-! ## Object representations -/

/-- Object representation of a `struct sockaddr_in`. -/
abbrev sockaddr_in := {m : List Byte // m.length = sizeof_sockaddr_in}

/-- Object representation of a `struct sockaddr_in6`. -/
abbrev sockaddr_in6 := {m : List Byte // m.length = sizeof_sockaddr_in6}

/-- Object representation of a `struct ndm_ip_sockaddr_t` (lines 38-46): the
union is as large as its largest member, `struct sockaddr_storage`. -/
abbrev ndm_ip_sockaddr_t := {m : List Byte // m.length = sizeof_sockaddr_storage}

/-- The `len` bytes of `m` that start at offset `off`. -/
def field (m : List Byte) (off len : Nat) : List Byte :=
  (m.drop off).take len

/-- A 16-bit field in host byte order, read at offset `off`. -/
def get16 (be : Bool) (m : List Byte) (off : Nat) : Nat :=
  let b0 := (m.getD off 0).val
  let b1 := (m.getD (off + 1) 0).val
  if be then b0 * 256 + b1 else b1 * 256 + b0

/-- The two bytes of a 16-bit value in host byte order. -/
def put16 (be : Bool) (v : Nat) : List Byte :=
  if be then [Fin.ofNat (v / 256), Fin.ofNat v] else [Fin.ofNat v, Fin.ofNat (v / 256)]

/-- C `memcpy(dst, src, n)`: the first `n` bytes of `dst` are replaced by the
first `n` bytes of `src`, every other byte of `dst` is kept. -/
def memcpy (dst src : List Byte) (n : Nat) : List Byte :=
  src.take n ++ dst.drop n

/-- Member `sin_family` of a `struct sockaddr_in`. -/
def sockaddr_in.sin_family (be : Bool) (a : sockaddr_in) : Nat := get16 be a.val 0

/-- Member `sin_port` of a `struct sockaddr_in`, as stored (network order). -/
def sockaddr_in.sin_port (a : sockaddr_in) : List Byte := field a.val 2 2

/-- Member `sin_addr` of a `struct sockaddr_in`: the 4 address bytes. -/
def sockaddr_in.sin_addr (a : sockaddr_in) : List Byte := field a.val 4 4

/-- Member `sin6_family` of a `struct sockaddr_in6`. -/
def sockaddr_in6.sin6_family (be : Bool) (a : sockaddr_in6) : Nat := get16 be a.val 0

/-- Member `sin6_port` of a `struct sockaddr_in6`, as stored (network order). -/
def sockaddr_in6.sin6_port (a : sockaddr_in6) : List Byte := field a.val 2 2

/-- Member `sin6_addr` of a `struct sockaddr_in6`: the 16 address bytes. -/
def sockaddr_in6.sin6_addr (a : sockaddr_in6) : List Byte := field a.val 8 16

/-- Union member `sa->un.in`. -/
def un_in (sa : ndm_ip_sockaddr_t) : sockaddr_in :=
  ⟨sa.val.take sizeof_sockaddr_in, by
    have h : sa.val.length = 128 := sa.property
    simp only [List.length_take, sizeof_sockaddr_in]
    omega⟩

/-- Union member `sa->un.in6`. -/
def un_in6 (sa : ndm_ip_sockaddr_t) : sockaddr_in6 :=
  ⟨sa.val.take sizeof_sockaddr_in6, by
    have h : sa.val.length = 128 := sa.property
    simp only [List.length_take, sizeof_sockaddr_in6]
    omega⟩

/-- A `struct sockaddr_in` with the given members and a zeroed `sin_zero`. -/
def mk_sockaddr_in (be : Bool) (family : Nat) (port : Byte × Byte)
    (a : Byte × Byte × Byte × Byte) : sockaddr_in :=
  ⟨put16 be family ++ [port.1, port.2] ++ [a.1, a.2.1, a.2.2.1, a.2.2.2] ++ List.replicate 8 0, by
    cases be <;> simp [put16]⟩

/-- A `struct sockaddr_in6` with the given members; `sin6_flowinfo` and
`sin6_scope_id` are zero, `addr` is cut or zero-filled to 16 bytes. -/
def mk_sockaddr_in6 (be : Bool) (family : Nat) (port : Byte × Byte)
    (addr : List Byte) : sockaddr_in6 :=
  ⟨put16 be family ++ [port.1, port.2] ++ List.replicate 4 0
      ++ (addr.take 16 ++ List.replicate (16 - addr.length) 0) ++ List.replicate 4 0, by
    cases be <;> simp [put16, sizeof_sockaddr_in6] <;> omega⟩

/-- A `struct ndm_ip_sockaddr_t` whose leading bytes are `m` (cut to the size
of the union) and whose remaining bytes all hold `fill`. -/
def mk_sockaddr (m : List Byte) (fill : Byte) : ndm_ip_sockaddr_t :=
  ⟨m.take sizeof_sockaddr_storage
      ++ List.replicate (sizeof_sockaddr_storage - m.length) fill, by
    simp [sizeof_sockaddr_storage]; omega⟩

/-! ## Outcome of a function that writes through `sa` -/

/-- Outcome of a call that writes through a `struct ndm_ip_sockaddr_t *`:
`done sa` is a normal return with `sa` the object afterwards, `abort sa` is
a failed `assert` with `sa` the object at the time of the abort. -/
inductive Exec where
  | done (sa : ndm_ip_sockaddr_t)
  | abort (sa : ndm_ip_sockaddr_t)
  deriving DecidableEq

/-- Whether the call ended in a failed assertion. -/
def Exec.aborted : Exec → Bool
  | Exec.done _ => false
  | Exec.abort _ => true

/-- The destination object when the call ended. -/
def Exec.dest : Exec → ndm_ip_sockaddr_t
  | Exec.done sa => sa
  | Exec.abort sa => sa

/-! ## The inline functions of the header -/

/-- Lines 74-78: `return sa->un.ss.ss_family;`. -/
def ndm_ip_sockaddr_family (be : Bool) (sa : ndm_ip_sockaddr_t) : Nat :=
  get16 be sa.val 0

/-- The statement `memcpy(sa, in, sizeof(*in))` with `in` a
`struct sockaddr_in *`: the object `sa` afterwards. -/
def memcpy_in (sa : ndm_ip_sockaddr_t) (inp : sockaddr_in) : ndm_ip_sockaddr_t :=
  ⟨memcpy sa.val inp.val sizeof_sockaddr_in, by
    have h1 : sa.val.length = 128 := sa.property
    have h2 : inp.val.length = 16 := inp.property
    simp only [memcpy, List.length_append, List.length_take, List.length_drop,
      sizeof_sockaddr_in, sizeof_sockaddr_storage]
    omega⟩

/-- The statement `memcpy(sa, in6, sizeof(*in6))` with `in6` a
`struct sockaddr_in6 *`: the object `sa` afterwards. -/
def memcpy_in6 (sa : ndm_ip_sockaddr_t) (inp : sockaddr_in6) : ndm_ip_sockaddr_t :=
  ⟨memcpy sa.val inp.val sizeof_sockaddr_in6, by
    have h1 : sa.val.length = 128 := sa.property
    have h2 : inp.val.length = 28 := inp.property
    simp only [memcpy, List.length_append, List.length_take, List.length_drop,
      sizeof_sockaddr_in6, sizeof_sockaddr_storage]
    omega⟩

/-- Lines 91-98: `assert(in->sin_family == AF_INET); memcpy(sa, in, sizeof(*in));`. -/
def ndm_ip_sockaddr_assign (ndebug be : Bool) (sa : ndm_ip_sockaddr_t)
    (inp : sockaddr_in) : Exec :=
  if !ndebug && inp.sin_family be != AF_INET then Exec.abort sa
  else Exec.done (memcpy_in sa inp)

/-- Lines 111-118: `assert(in6->sin6_family == AF_INET6); memcpy(sa, in6, sizeof(*in6));`. -/
def ndm_ip_sockaddr_assign6 (ndebug be : Bool) (sa : ndm_ip_sockaddr_t)
    (inp : sockaddr_in6) : Exec :=
  if !ndebug && inp.sin6_family be != AF_INET6 then Exec.abort sa
  else Exec.done (memcpy_in6 sa inp)

/-- Lines 181-185: `return (ndm_ip_sockaddr_family(sa) == AF_INET) ? true : false;`. -/
def ndm_ip_sockaddr_is_v4 (be : Bool) (sa : ndm_ip_sockaddr_t) : Bool :=
  if ndm_ip_sockaddr_family be sa == AF_INET then true else false

/-- Lines 268-272: `return (ndm_ip_sockaddr_family(sa) == AF_INET6) ? true : false;`. -/
def ndm_ip_sockaddr_is_v6 (be : Bool) (sa : ndm_ip_sockaddr_t) : Bool :=
  if ndm_ip_sockaddr_family be sa == AF_INET6 then true else false

/-- The two objects `ndm_ip_sockaddr_get_any` can point to. -/
inductive AnyRef where
  | NDM_IP_SOCKADDR_ANY
  | NDM_IP_SOCKADDR_ANY6
  deriving DecidableEq, Repr

/-- Lines 315-325: the assertion on `family`, then
`return (family == (sa_family_t) AF_INET) ? &NDM_IP_SOCKADDR_ANY : &NDM_IP_SOCKADDR_ANY6;`.
`none` is the failed assertion. -/
def ndm_ip_sockaddr_get_any (ndebug : Bool) (family : Nat) : Option AnyRef :=
  if !ndebug && !(family == AF_INET || family == AF_INET6) then none
  else some (if family == AF_INET then AnyRef.NDM_IP_SOCKADDR_ANY
    else AnyRef.NDM_IP_SOCKADDR_ANY6)

/-- Lines 371-377: `assert(is_v4(sa) || is_v6(sa));` then
`return (ndm_ip_sockaddr_family(sa) == AF_INET) ? PF_INET : PF_INET6;`. -/
def ndm_ip_sockaddr_domain (ndebug be : Bool) (sa : ndm_ip_sockaddr_t) : Option Int :=
  if !ndebug && !(ndm_ip_sockaddr_is_v4 be sa || ndm_ip_sockaddr_is_v6 be sa) then none
  else some (if ndm_ip_sockaddr_family be sa == AF_INET then PF_INET else PF_INET6)

/-- Lines 390-398: `assert(is_v4(sa) || is_v6(sa));` then
`return (socklen_t) (family(sa) == AF_INET ? sizeof(struct sockaddr_in) : sizeof(struct sockaddr_in6));`. -/
def ndm_ip_sockaddr_size (ndebug be : Bool) (sa : ndm_ip_sockaddr_t) : Option Nat :=
  if !ndebug && !(ndm_ip_sockaddr_is_v4 be sa || ndm_ip_sockaddr_is_v6 be sa) then none
  else some (if ndm_ip_sockaddr_family be sa == AF_INET then sizeof_sockaddr_in
    else sizeof_sockaddr_in6)

/-! ## Functions and objects defined in `ip_sockaddr.c`

The header only declares them; their definitions are modelled from the
specification of the library. -/

/-- Modelled from the spec: the object `NDM_IP_SOCKADDR_ANY` is declared
`extern` at line 53 and defined in `ip_sockaddr.c`, which is not among the
sources.  The spec describes it as the constant `0.0.0.0`, port 0, of family
V4; the bytes the spec does not speak of are zero. -/
def NDM_IP_SOCKADDR_ANY (be : Bool) : ndm_ip_sockaddr_t :=
  mk_sockaddr (mk_sockaddr_in be AF_INET (0, 0) (0, 0, 0, 0)).val 0

/-- Modelled from the spec: the object `NDM_IP_SOCKADDR_ANY6` is declared
`extern` at line 61 and defined in `ip_sockaddr.c`, which is not among the
sources.  The spec describes it as the constant `::`, port 0, of family V6;
the bytes the spec does not speak of are zero. -/
def NDM_IP_SOCKADDR_ANY6 (be : Bool) : ndm_ip_sockaddr_t :=
  mk_sockaddr (mk_sockaddr_in6 be AF_INET6 (0, 0) []).val 0

/-- The object a pointer returned by `ndm_ip_sockaddr_get_any` points to. -/
def AnyRef.deref (be : Bool) : AnyRef → ndm_ip_sockaddr_t
  | AnyRef.NDM_IP_SOCKADDR_ANY => Ndm.NDM_IP_SOCKADDR_ANY be
  | AnyRef.NDM_IP_SOCKADDR_ANY6 => Ndm.NDM_IP_SOCKADDR_ANY6 be

/-- Modelled from the spec: `ndm_ip_sockaddr_is_v4_mapped` is declared at
lines 197-198 and defined in `ip_sockaddr.c`, which is not among the sources.
Spec: a V6 address is v4-mapped iff its first 80 bits are zero and the next
16 bits equal `0xFFFF`; the predicate is false for a pure V4 value. -/
def ndm_ip_sockaddr_is_v4_mapped (be : Bool) (sa : ndm_ip_sockaddr_t) : Bool :=
  ndm_ip_sockaddr_is_v6 be sa &&
    (field (un_in6 sa).sin6_addr 0 10 == List.replicate 10 0 &&
      field (un_in6 sa).sin6_addr 10 2 == [0xFF, 0xFF])

/-- Modelled from the spec: `ndm_ip_sockaddr_is_v4_compat` is declared at
lines 210-211 and defined in `ip_sockaddr.c`, which is not among the sources.
Spec: a V6 address is v4-compatible iff its first 96 bits are zero and the low
32 bits are non-zero; the predicate is false for a pure V4 value. -/
def ndm_ip_sockaddr_is_v4_compat (be : Bool) (sa : ndm_ip_sockaddr_t) : Bool :=
  ndm_ip_sockaddr_is_v6 be sa &&
    (field (un_in6 sa).sin6_addr 0 12 == List.replicate 12 0 &&
      field (un_in6 sa).sin6_addr 12 4 != List.replicate 4 0)

/-- The IPv4 value embedded in an IPv6 value: family `AF_INET`, the port of
`sa`, the low 32 bits of its address, a zeroed `sin_zero`. -/
def embedded_v4 (be : Bool) (sa : ndm_ip_sockaddr_t) : sockaddr_in :=
  ⟨put16 be AF_INET ++ ((un_in6 sa).sin6_port ++ (field (un_in6 sa).sin6_addr 12 4
      ++ List.replicate 8 0)), by
    have h : sa.val.length = 128 := sa.property
    cases be <;>
      simp [put16, sockaddr_in6.sin6_port, sockaddr_in6.sin6_addr, field, un_in6,
        List.length_take, List.length_drop, sizeof_sockaddr_in6, sizeof_sockaddr_in] <;>
      omega⟩

/-- Modelled from the spec: `ndm_ip_sockaddr_get_v4` is declared at lines
223-225 and defined in `ip_sockaddr.c`, which is not among the sources.
Spec (`to_v4`): succeeds, copying the embedded or underlying V4 value into
`out` and preserving the port, when `addr` is already V4, v4-mapped or
v4-compatible; fails, returning false with `out` untouched, otherwise.
The result is the returned flag and the object `sa4` afterwards.  The V4
value is stored as a `struct sockaddr_in` over the start of `sa4`, the way
`ndm_ip_sockaddr_assign` stores one; what the
bytes of `sa4` outside family, port and address hold is not said by the spec
and no theorem below speaks of them. -/
def ndm_ip_sockaddr_get_v4 (be : Bool) (sa sa4 : ndm_ip_sockaddr_t) :
    Bool × ndm_ip_sockaddr_t :=
  if ndm_ip_sockaddr_is_v4 be sa then
    (true, memcpy_in sa4 (un_in sa))
  else if ndm_ip_sockaddr_is_v4_mapped be sa || ndm_ip_sockaddr_is_v4_compat be sa then
    (true, memcpy_in sa4 (embedded_v4 be sa))
  else (false, sa4)

/-- The address bytes of a value, by its tag: the 4 bytes of `sin_addr` for
family `AF_INET`, the 16 bytes of `sin6_addr` for family `AF_INET6`.  The data
model of the spec gives a payload to these two tags only; a value of another
tag has no address bytes. -/
def address_bytes (be : Bool) (sa : ndm_ip_sockaddr_t) : List Byte :=
  if ndm_ip_sockaddr_is_v4 be sa then (un_in sa).sin_addr
  else if ndm_ip_sockaddr_is_v6 be sa then (un_in6 sa).sin6_addr
  else []

/-- Modelled from the spec: `ndm_ip_sockaddr_port` is declared at lines
357-358 and defined in `ip_sockaddr.c`, which is not among the sources.
Spec: the port is a 16-bit number, stored in network byte order, exposed in
host order by the accessor, independently of the family (`sin_port` and
`sin6_port` are the same two bytes of the union). -/
def ndm_ip_sockaddr_port (sa : ndm_ip_sockaddr_t) : Nat :=
  (sa.val.getD 2 0).val * 256 + (sa.val.getD 3 0).val

/-- Modelled from the spec: `ndm_ip_sockaddr_set_port` is declared at lines
345-347 and defined in `ip_sockaddr.c`, which is not among the sources.
Spec: the port mutator stores the 16-bit port independently of the family and
does not affect the family.  The two port bytes are written in network byte
order (the `uint16_t` argument keeps the low 16 bits of `port`); the result
is the object `sa` afterwards. -/
def ndm_ip_sockaddr_set_port (sa : ndm_ip_sockaddr_t) (port : Nat) : ndm_ip_sockaddr_t :=
  ⟨sa.val.take 2 ++ [Fin.ofNat (port / 256), Fin.ofNat port] ++ sa.val.drop 4, by
    have h : sa.val.length = 128 := sa.property
    simp only [List.length_append, List.length_take, List.length_drop, List.length_cons,
      List.length_nil, sizeof_sockaddr_storage]
    omega⟩

/-- Modelled from the spec: `ndm_ip_sockaddr_is_equal` is declared at lines
129-131 and defined in `ip_sockaddr.c`, which is not among the sources.
Spec (`equals_exact`): true iff family, address bytes and port all match. -/
def ndm_ip_sockaddr_is_equal (be : Bool) (sa1 sa2 : ndm_ip_sockaddr_t) : Bool :=
  ndm_ip_sockaddr_family be sa1 == ndm_ip_sockaddr_family be sa2 &&
    (address_bytes be sa1 == address_bytes be sa2 &&
      ndm_ip_sockaddr_port sa1 == ndm_ip_sockaddr_port sa2)

/-- Modelled from the spec: `ndm_ip_sockaddr_address_is_equal` is declared at
lines 143-145 and defined in `ip_sockaddr.c`, which is not among the sources.
Spec (`equals_address_only`): true iff family and address bytes match; the
port is ignored. -/
def ndm_ip_sockaddr_address_is_equal (be : Bool) (sa1 sa2 : ndm_ip_sockaddr_t) : Bool :=
  ndm_ip_sockaddr_family be sa1 == ndm_ip_sockaddr_family be sa2 &&
    address_bytes be sa1 == address_bytes be sa2

/-- Modelled from the spec: `ndm_ip_sockaddr_is_any` is declared at lines
155-156 and defined in `ip_sockaddr.c`, which is not among the sources.
Spec (`is_any`): true iff `addr` equals the canonical zero-address-and-zero-port
constant of its family, by a full value comparison against `ANY_V4` or
`ANY_V6`. -/
def ndm_ip_sockaddr_is_any (be : Bool) (sa : ndm_ip_sockaddr_t) : Bool :=
  if ndm_ip_sockaddr_is_v4 be sa then
    ndm_ip_sockaddr_is_equal be sa (NDM_IP_SOCKADDR_ANY be)
  else if ndm_ip_sockaddr_is_v6 be sa then
    ndm_ip_sockaddr_is_equal be sa (NDM_IP_SOCKADDR_ANY6 be)
  else false

/-- Modelled from the spec: `ndm_ip_sockaddr_address_is_any` is declared at
lines 167-168 and defined in `ip_sockaddr.c`, which is not among the sources.
Spec (`address_is_any`): true iff the address bytes alone are all-zero for the
given family, irrespective of the port. -/
def ndm_ip_sockaddr_address_is_any (be : Bool) (sa : ndm_ip_sockaddr_t) : Bool :=
  if ndm_ip_sockaddr_is_v4 be sa then (un_in sa).sin_addr == List.replicate 4 0
  else if ndm_ip_sockaddr_is_v6 be sa then (un_in6 sa).sin6_addr == List.replicate 16 0
  else false

/-! ## Sample values -/

/-- The IPv4 source `192.0.2.1`, port 80. -/
def sample_in (be : Bool) : sockaddr_in :=
  mk_sockaddr_in be AF_INET (0, 80) (192, 0, 2, 1)

/-- The IPv6 source `2001:db8::1`, port 443. -/
def sample_in6 (be : Bool) : sockaddr_in6 :=
  mk_sockaddr_in6 be AF_INET6 (1, 187) [0x20, 0x01, 0x0d, 0xb8, 0, 0, 0, 0, 0, 0, 0, 0, 0, 0, 0, 1]

/-- An object whose bytes are all zero, as after `memset(&sa, 0, sizeof(sa))`. -/
def zeroed : ndm_ip_sockaddr_t := mk_sockaddr [] 0

/-- An object whose bytes all hold `0xAA`. -/
def filled : ndm_ip_sockaddr_t := mk_sockaddr [] 0xAA

/-- The IPv6 value `::ffff:192.0.2.1`, port 443, stored over a zeroed object. -/
def sample_mapped (be : Bool) : ndm_ip_sockaddr_t :=
  memcpy_in6 zeroed (mk_sockaddr_in6 be AF_INET6 (1, 187)
    [0, 0, 0, 0, 0, 0, 0, 0, 0, 0, 0xFF, 0xFF, 192, 0, 2, 1])

/-- The IPv6 value `::192.0.2.1`, port 443, stored over a zeroed object. -/
def sample_compat (be : Bool) : ndm_ip_sockaddr_t :=
  memcpy_in6 zeroed (mk_sockaddr_in6 be AF_INET6 (1, 187)
    [0, 0, 0, 0, 0, 0, 0, 0, 0, 0, 0, 0, 192, 0, 2, 1])

/-- The IPv6 value `2001:db8::1`, port 443, stored over a zeroed object. -/
def sample_v6 (be : Bool) : ndm_ip_sockaddr_t :=
  memcpy_in6 zeroed (sample_in6 be)

/-- The IPv4 value `192.0.2.1`, port 80, stored over a zeroed object. -/
def sample_v4 (be : Bool) : ndm_ip_sockaddr_t :=
  memcpy_in zeroed (sample_in be)

/-- The IPv4 value `192.0.2.1`, port 80, stored over an object filled with
`0xAA`. -/
def sample_v4_over_filled (be : Bool) : ndm_ip_sockaddr_t :=
  memcpy_in filled (sample_in be)

/-! ## Lemmas on the memory model -/

theorem getD_memcpy_lt (dst src : List Byte) (n i : Nat) (d : Byte)
    (hi : i < n) (hn : n ≤ src.length) :
    (memcpy dst src n).getD i d = src.getD i d := by
  have h : i < (src.take n).length := by simp [List.length_take]; omega
  simp [memcpy, List.getD_eq_getElem?_getD, List.getElem?_append_left h, List.getElem?_take, hi]

theorem get16_memcpy (be : Bool) (dst src : List Byte) (n : Nat)
    (h2 : 2 ≤ n) (hn : n ≤ src.length) :
    get16 be (memcpy dst src n) 0 = get16 be src 0 := by
  unfold get16
  rw [getD_memcpy_lt dst src n 0 0 (by omega) hn,
    getD_memcpy_lt dst src n (0 + 1) 0 (by omega) hn]

theorem field_memcpy_low (dst src : List Byte) (n off len : Nat)
    (h : off + len ≤ n) (hn : n ≤ src.length) :
    field (memcpy dst src n) off len = field src off len := by
  unfold field memcpy
  rw [List.drop_append_of_le_length (by simp [List.length_take]; omega)]
  rw [List.take_append_of_le_length (by simp [List.length_take, List.length_drop]; omega)]
  rw [List.drop_take, List.take_take]
  congr 1
  omega

theorem take_memcpy (dst src : List Byte) (n : Nat) (hn : n ≤ src.length) :
    (memcpy dst src n).take n = src.take n := by
  unfold memcpy
  rw [List.take_append_of_le_length (by simp [List.length_take]; omega)]
  simp [List.take_take]

theorem drop_memcpy (dst src : List Byte) (n : Nat) (hn : n ≤ src.length) :
    (memcpy dst src n).drop n = dst.drop n := by
  unfold memcpy
  have : (src.take n).length = n := by simp [List.length_take]; omega
  rw [List.drop_append_eq_append_drop]
  simp [this]

theorem AF_INET_ne_AF_INET6 : AF_INET ≠ AF_INET6 := by decide

theorem family_memcpy_in (be : Bool) (sa : ndm_ip_sockaddr_t) (inp : sockaddr_in) :
    ndm_ip_sockaddr_family be (memcpy_in sa inp) = inp.sin_family be := by
  have h2 : inp.val.length = 16 := inp.property
  exact get16_memcpy be sa.val inp.val sizeof_sockaddr_in (by decide) (by omega)

theorem family_memcpy_in6 (be : Bool) (sa : ndm_ip_sockaddr_t) (inp : sockaddr_in6) :
    ndm_ip_sockaddr_family be (memcpy_in6 sa inp) = inp.sin6_family be := by
  have h2 : inp.val.length = 28 := inp.property
  exact get16_memcpy be sa.val inp.val sizeof_sockaddr_in6 (by decide) (by omega)

theorem un_in_memcpy_in (sa : ndm_ip_sockaddr_t) (inp : sockaddr_in) :
    un_in (memcpy_in sa inp) = inp := by
  have h2 : inp.val.length = 16 := inp.property
  apply Subtype.ext
  show (memcpy sa.val inp.val sizeof_sockaddr_in).take sizeof_sockaddr_in = inp.val
  rw [take_memcpy _ _ _ (by omega)]
  exact List.take_of_length_le (by omega)

theorem un_in6_memcpy_in6 (sa : ndm_ip_sockaddr_t) (inp : sockaddr_in6) :
    un_in6 (memcpy_in6 sa inp) = inp := by
  have h2 : inp.val.length = 28 := inp.property
  apply Subtype.ext
  show (memcpy sa.val inp.val sizeof_sockaddr_in6).take sizeof_sockaddr_in6 = inp.val
  rw [take_memcpy _ _ _ (by omega)]
  exact List.take_of_length_le (by omega)

theorem is_v4_iff (be : Bool) (sa : ndm_ip_sockaddr_t) :
    ndm_ip_sockaddr_is_v4 be sa = true ↔ ndm_ip_sockaddr_family be sa = AF_INET := by
  simp [ndm_ip_sockaddr_is_v4]

theorem is_v6_iff (be : Bool) (sa : ndm_ip_sockaddr_t) :
    ndm_ip_sockaddr_is_v6 be sa = true ↔ ndm_ip_sockaddr_family be sa = AF_INET6 := by
  simp [ndm_ip_sockaddr_is_v6]

/-! ## C1 -/

/-- C1: two socket addresses of the same family, that family being `AF_INET`
or `AF_INET6`, have the same protocol domain and the same size, both calls
return, and nothing but the family field enters the result. -/
theorem domain_size_determined_by_family (ndebug be : Bool) (a b : ndm_ip_sockaddr_t)
    (hfam : ndm_ip_sockaddr_family be a = AF_INET ∨ ndm_ip_sockaddr_family be a = AF_INET6)
    (hab : ndm_ip_sockaddr_family be a = ndm_ip_sockaddr_family be b) :
    ∃ d s, ndm_ip_sockaddr_domain ndebug be a = some d ∧
      ndm_ip_sockaddr_domain ndebug be b = some d ∧
      ndm_ip_sockaddr_size ndebug be a = some s ∧
      ndm_ip_sockaddr_size ndebug be b = some s := by
  have hb : ndm_ip_sockaddr_family be b = AF_INET ∨ ndm_ip_sockaddr_family be b = AF_INET6 := by
    rw [← hab]; exact hfam
  rcases hfam with h | h
  · have h2 : ndm_ip_sockaddr_family be b = AF_INET := by rw [← hab]; exact h
    exact ⟨PF_INET, sizeof_sockaddr_in, by
      simp [ndm_ip_sockaddr_domain, ndm_ip_sockaddr_size, ndm_ip_sockaddr_is_v4,
        ndm_ip_sockaddr_is_v6, h, h2]⟩
  · have h2 : ndm_ip_sockaddr_family be b = AF_INET6 := by rw [← hab]; exact h
    exact ⟨PF_INET6, sizeof_sockaddr_in6, by
      simp [ndm_ip_sockaddr_domain, ndm_ip_sockaddr_size, ndm_ip_sockaddr_is_v4,
        ndm_ip_sockaddr_is_v6, h, h2, AF_INET, AF_INET6]⟩

/-- C1, at two IPv4 values that differ in port, address and trailing bytes. -/
theorem domain_size_determined_by_family_witness :
    ∃ d s,
      ndm_ip_sockaddr_domain false true
          (mk_sockaddr (mk_sockaddr_in true AF_INET (0, 80) (192, 0, 2, 1)).val 0) = some d ∧
      ndm_ip_sockaddr_domain false true
          (mk_sockaddr (mk_sockaddr_in true AF_INET (31, 144) (10, 0, 0, 7)).val 170) = some d ∧
      ndm_ip_sockaddr_size false true
          (mk_sockaddr (mk_sockaddr_in true AF_INET (0, 80) (192, 0, 2, 1)).val 0) = some s ∧
      ndm_ip_sockaddr_size false true
          (mk_sockaddr (mk_sockaddr_in true AF_INET (31, 144) (10, 0, 0, 7)).val 170) = some s :=
  domain_size_determined_by_family false true
    (mk_sockaddr (mk_sockaddr_in true AF_INET (0, 80) (192, 0, 2, 1)).val 0)
    (mk_sockaddr (mk_sockaddr_in true AF_INET (31, 144) (10, 0, 0, 7)).val 170)
    (Or.inl (by decide)) (by decide)

/-! ## C2 -/

/-- C2, at the failing input: `ndm_ip_sockaddr_family` is documented (line 68)
to return `AF_INET` or `AF_INET6`, yet on a zero-filled object it returns 0,
which is neither, on a host of either byte order; it is the value on which
the assertion of `ndm_ip_sockaddr_domain` and `ndm_ip_sockaddr_size` fails. -/
theorem family_of_zeroed_is_neither :
    ndm_ip_sockaddr_family false zeroed = 0 ∧
      ¬ (ndm_ip_sockaddr_family false zeroed = AF_INET ∨
        ndm_ip_sockaddr_family false zeroed = AF_INET6) ∧
      ndm_ip_sockaddr_family true zeroed = 0 ∧
      ¬ (ndm_ip_sockaddr_family true zeroed = AF_INET ∨
        ndm_ip_sockaddr_family true zeroed = AF_INET6) ∧
      ndm_ip_sockaddr_domain false false zeroed = none ∧
      ndm_ip_sockaddr_size false false zeroed = none := by
  decide

/-- Where the documented return value of `ndm_ip_sockaddr_family` does hold:
every value that `ndm_ip_sockaddr_assign` builds from a source of family
`AF_INET`, or `ndm_ip_sockaddr_assign6` from a source of family `AF_INET6`,
is returned without abort and has family `AF_INET` or `AF_INET6`. -/
theorem family_of_constructed_value (ndebug be : Bool) (sa : ndm_ip_sockaddr_t)
    (inp : sockaddr_in) (inp6 : sockaddr_in6) (r : Exec)
    (h : (r = ndm_ip_sockaddr_assign ndebug be sa inp ∧ inp.sin_family be = AF_INET) ∨
      (r = ndm_ip_sockaddr_assign6 ndebug be sa inp6 ∧ inp6.sin6_family be = AF_INET6)) :
    r.aborted = false ∧
      (ndm_ip_sockaddr_family be r.dest = AF_INET ∨
        ndm_ip_sockaddr_family be r.dest = AF_INET6) := by
  rcases h with ⟨hr, hf⟩ | ⟨hr, hf⟩
  · subst hr
    simp [ndm_ip_sockaddr_assign, hf, Exec.aborted, Exec.dest, family_memcpy_in]
  · subst hr
    simp [ndm_ip_sockaddr_assign6, hf, Exec.aborted, Exec.dest, family_memcpy_in6]

/-- The family of a constructed value, at the IPv6 source `2001:db8::1`
assigned over a zeroed object. -/
theorem family_of_constructed_value_witness :
    (ndm_ip_sockaddr_assign6 false false zeroed (sample_in6 false)).aborted = false ∧
      (ndm_ip_sockaddr_family false
          (ndm_ip_sockaddr_assign6 false false zeroed (sample_in6 false)).dest = AF_INET ∨
        ndm_ip_sockaddr_family false
          (ndm_ip_sockaddr_assign6 false false zeroed (sample_in6 false)).dest = AF_INET6) :=
  family_of_constructed_value false false zeroed (sample_in false) (sample_in6 false) _
    (Or.inr ⟨rfl, by decide⟩)

/-! ## C3 -/

/-- C3: from a source of family `AF_INET`, `ndm_ip_sockaddr_assign` returns
and leaves a value of family `AF_INET` (`is_v4` true, `is_v6` false) whose
`sockaddr_in` member, port and 4 address bytes included, is the source; from
a source of family `AF_INET6`, `ndm_ip_sockaddr_assign6` returns and leaves a
value of family `AF_INET6` (`is_v6` true, `is_v4` false) whose `sockaddr_in6`
member, port and 16 address bytes included, is the source. -/
theorem assign_stores_source (ndebug be : Bool) (sa : ndm_ip_sockaddr_t)
    (inp : sockaddr_in) (inp6 : sockaddr_in6)
    (h4 : inp.sin_family be = AF_INET) (h6 : inp6.sin6_family be = AF_INET6) :
    (∃ r, ndm_ip_sockaddr_assign ndebug be sa inp = Exec.done r ∧
        ndm_ip_sockaddr_family be r = AF_INET ∧
        ndm_ip_sockaddr_is_v4 be r = true ∧ ndm_ip_sockaddr_is_v6 be r = false ∧
        un_in r = inp ∧
        (un_in r).sin_port = inp.sin_port ∧ (un_in r).sin_addr = inp.sin_addr ∧
        (un_in r).sin_addr.length = 4) ∧
      (∃ r, ndm_ip_sockaddr_assign6 ndebug be sa inp6 = Exec.done r ∧
        ndm_ip_sockaddr_family be r = AF_INET6 ∧
        ndm_ip_sockaddr_is_v6 be r = true ∧ ndm_ip_sockaddr_is_v4 be r = false ∧
        un_in6 r = inp6 ∧
        (un_in6 r).sin6_port = inp6.sin6_port ∧ (un_in6 r).sin6_addr = inp6.sin6_addr ∧
        (un_in6 r).sin6_addr.length = 16) := by
  have l4 : inp.val.length = 16 := inp.property
  have l6 : inp6.val.length = 28 := inp6.property
  refine ⟨⟨memcpy_in sa inp, ?_, ?_, ?_, ?_, ?_, ?_, ?_, ?_⟩,
    ⟨memcpy_in6 sa inp6, ?_, ?_, ?_, ?_, ?_, ?_, ?_, ?_⟩⟩
  · simp [ndm_ip_sockaddr_assign, h4]
  · rw [family_memcpy_in, h4]
  · simp [ndm_ip_sockaddr_is_v4, family_memcpy_in, h4]
  · simp [ndm_ip_sockaddr_is_v6, family_memcpy_in, h4, AF_INET, AF_INET6]
  · exact un_in_memcpy_in sa inp
  · rw [un_in_memcpy_in]
  · rw [un_in_memcpy_in]
  · rw [un_in_memcpy_in]
    simp [sockaddr_in.sin_addr, field, List.length_take, List.length_drop, l4]
  · simp [ndm_ip_sockaddr_assign6, h6]
  · rw [family_memcpy_in6, h6]
  · simp [ndm_ip_sockaddr_is_v6, family_memcpy_in6, h6]
  · simp [ndm_ip_sockaddr_is_v4, family_memcpy_in6, h6, AF_INET, AF_INET6]
  · exact un_in6_memcpy_in6 sa inp6
  · rw [un_in6_memcpy_in6]
  · rw [un_in6_memcpy_in6]
  · rw [un_in6_memcpy_in6]
    simp [sockaddr_in6.sin6_addr, field, List.length_take, List.length_drop, l6]

/-- C3, at `192.0.2.1` port 80 and `2001:db8::1` port 443 assigned over an
object filled with `0xAA`, on a little-endian host. -/
theorem assign_stores_source_witness :
    (sample_in false).sin_family false = AF_INET ∧
      (sample_in6 false).sin6_family false = AF_INET6 ∧
      (∃ r, ndm_ip_sockaddr_assign false false filled (sample_in false) = Exec.done r ∧
        ndm_ip_sockaddr_family false r = AF_INET ∧
        ndm_ip_sockaddr_is_v4 false r = true ∧ ndm_ip_sockaddr_is_v6 false r = false ∧
        un_in r = sample_in false ∧
        (un_in r).sin_port = (sample_in false).sin_port ∧
        (un_in r).sin_addr = (sample_in false).sin_addr ∧
        (un_in r).sin_addr.length = 4) ∧
      (∃ r, ndm_ip_sockaddr_assign6 false false filled (sample_in6 false) = Exec.done r ∧
        ndm_ip_sockaddr_family false r = AF_INET6 ∧
        ndm_ip_sockaddr_is_v6 false r = true ∧ ndm_ip_sockaddr_is_v4 false r = false ∧
        un_in6 r = sample_in6 false ∧
        (un_in6 r).sin6_port = (sample_in6 false).sin6_port ∧
        (un_in6 r).sin6_addr = (sample_in6 false).sin6_addr ∧
        (un_in6 r).sin6_addr.length = 16) :=
  ⟨by decide, by decide,
    assign_stores_source false false filled (sample_in false) (sample_in6 false)
      (by decide) (by decide)⟩

/-! ## C4 -/

/-- C4: with assertions compiled in, `ndm_ip_sockaddr_assign` aborts if and
only if `sin_family` of the source is not `AF_INET`, and
`ndm_ip_sockaddr_assign6` aborts if and only if `sin6_family` of the source
is not `AF_INET6`; whenever either aborts the destination is the object it
was before the call. -/
theorem assign_aborts_iff_family_mismatch (be : Bool) (sa : ndm_ip_sockaddr_t)
    (inp : sockaddr_in) (inp6 : sockaddr_in6) :
    ((ndm_ip_sockaddr_assign false be sa inp).aborted = true ↔
        inp.sin_family be ≠ AF_INET) ∧
      ((ndm_ip_sockaddr_assign6 false be sa inp6).aborted = true ↔
        inp6.sin6_family be ≠ AF_INET6) ∧
      ((ndm_ip_sockaddr_assign false be sa inp).aborted = true →
        ndm_ip_sockaddr_assign false be sa inp = Exec.abort sa ∧
          (ndm_ip_sockaddr_assign false be sa inp).dest = sa) ∧
      ((ndm_ip_sockaddr_assign6 false be sa inp6).aborted = true →
        ndm_ip_sockaddr_assign6 false be sa inp6 = Exec.abort sa ∧
          (ndm_ip_sockaddr_assign6 false be sa inp6).dest = sa) := by
  refine ⟨?_, ?_, ?_, ?_⟩
  · by_cases h : inp.sin_family be = AF_INET <;>
      simp [ndm_ip_sockaddr_assign, h, Exec.aborted]
  · by_cases h : inp6.sin6_family be = AF_INET6 <;>
      simp [ndm_ip_sockaddr_assign6, h, Exec.aborted]
  · by_cases h : inp.sin_family be = AF_INET <;>
      simp [ndm_ip_sockaddr_assign, h, Exec.aborted, Exec.dest]
  · by_cases h : inp6.sin6_family be = AF_INET6 <;>
      simp [ndm_ip_sockaddr_assign6, h, Exec.aborted, Exec.dest]

/-- C4, at an IPv6 source handed to `ndm_ip_sockaddr_assign` and an IPv4
source handed to `ndm_ip_sockaddr_assign6`: both abort and the destination
still holds `0xAA` in every byte. -/
theorem assign_aborts_iff_family_mismatch_witness :
    ndm_ip_sockaddr_assign false false filled
        (mk_sockaddr_in false AF_INET6 (0, 80) (192, 0, 2, 1)) = Exec.abort filled ∧
      ndm_ip_sockaddr_assign6 false false filled
        (mk_sockaddr_in6 false AF_INET (0, 80) [192, 0, 2, 1]) = Exec.abort filled :=
  ⟨((assign_aborts_iff_family_mismatch false filled
      (mk_sockaddr_in false AF_INET6 (0, 80) (192, 0, 2, 1)) (sample_in6 false)).2.2.1
      ((assign_aborts_iff_family_mismatch false filled
        (mk_sockaddr_in false AF_INET6 (0, 80) (192, 0, 2, 1)) (sample_in6 false)).1.2
        (by decide))).1,
    ((assign_aborts_iff_family_mismatch false filled (sample_in false)
      (mk_sockaddr_in6 false AF_INET (0, 80) [192, 0, 2, 1])).2.2.2
      ((assign_aborts_iff_family_mismatch false filled (sample_in false)
        (mk_sockaddr_in6 false AF_INET (0, 80) [192, 0, 2, 1])).2.1.2
        (by decide))).1⟩

/-! ## C5 -/

/-- C5: with assertions compiled in, `ndm_ip_sockaddr_get_any(f)` returns
the address of `NDM_IP_SOCKADDR_ANY` when `f` is `AF_INET`, the address of
`NDM_IP_SOCKADDR_ANY6` when `f` is `AF_INET6`, and aborts if and only if `f`
is neither. -/
theorem get_any_by_family (f : Nat) :
    (f = AF_INET → ndm_ip_sockaddr_get_any false f = some AnyRef.NDM_IP_SOCKADDR_ANY) ∧
      (f = AF_INET6 → ndm_ip_sockaddr_get_any false f = some AnyRef.NDM_IP_SOCKADDR_ANY6) ∧
      (ndm_ip_sockaddr_get_any false f = none ↔ f ≠ AF_INET ∧ f ≠ AF_INET6) := by
  refine ⟨?_, ?_, ?_⟩
  · intro h
    simp [ndm_ip_sockaddr_get_any, h]
  · intro h
    simp [ndm_ip_sockaddr_get_any, h, AF_INET, AF_INET6]
  · by_cases h4 : f = AF_INET <;> by_cases h6 : f = AF_INET6 <;>
      simp [ndm_ip_sockaddr_get_any, h4, h6]

/-- C5, at the families 2, 10 and 0 (`AF_UNSPEC`). -/
theorem get_any_by_family_witness :
    ndm_ip_sockaddr_get_any false 2 = some AnyRef.NDM_IP_SOCKADDR_ANY ∧
      ndm_ip_sockaddr_get_any false 10 = some AnyRef.NDM_IP_SOCKADDR_ANY6 ∧
      ndm_ip_sockaddr_get_any false 0 = none :=
  ⟨(get_any_by_family 2).1 rfl, (get_any_by_family 10).2.1 rfl,
    (get_any_by_family 0).2.2.2 ⟨by decide, by decide⟩⟩

/-! ## C6 -/

/-- C6: with assertions compiled in, `ndm_ip_sockaddr_domain` returns
`PF_INET` for family `AF_INET`, `PF_INET6` for family `AF_INET6`, and aborts
if and only if the family is neither; it does not abort on a value that
`ndm_ip_sockaddr_assign` or `ndm_ip_sockaddr_assign6` returned with. -/
theorem domain_by_family (be : Bool) (sa dst : ndm_ip_sockaddr_t)
    (inp : sockaddr_in) (inp6 : sockaddr_in6) :
    (ndm_ip_sockaddr_family be sa = AF_INET →
        ndm_ip_sockaddr_domain false be sa = some PF_INET) ∧
      (ndm_ip_sockaddr_family be sa = AF_INET6 →
        ndm_ip_sockaddr_domain false be sa = some PF_INET6) ∧
      (ndm_ip_sockaddr_domain false be sa = none ↔
        ndm_ip_sockaddr_family be sa ≠ AF_INET ∧ ndm_ip_sockaddr_family be sa ≠ AF_INET6) ∧
      (ndm_ip_sockaddr_assign false be dst inp = Exec.done sa →
        ndm_ip_sockaddr_domain false be sa = some PF_INET) ∧
      (ndm_ip_sockaddr_assign6 false be dst inp6 = Exec.done sa →
        ndm_ip_sockaddr_domain false be sa = some PF_INET6) := by
  have h4 : ndm_ip_sockaddr_family be sa = AF_INET →
      ndm_ip_sockaddr_domain false be sa = some PF_INET := by
    intro h
    simp [ndm_ip_sockaddr_domain, ndm_ip_sockaddr_is_v4, h]
  have h6 : ndm_ip_sockaddr_family be sa = AF_INET6 →
      ndm_ip_sockaddr_domain false be sa = some PF_INET6 := by
    intro h
    simp [ndm_ip_sockaddr_domain, ndm_ip_sockaddr_is_v4, ndm_ip_sockaddr_is_v6, h,
      AF_INET, AF_INET6]
  refine ⟨h4, h6, ?_, ?_, ?_⟩
  · by_cases a4 : ndm_ip_sockaddr_family be sa = AF_INET <;>
      by_cases a6 : ndm_ip_sockaddr_family be sa = AF_INET6 <;>
      simp [ndm_ip_sockaddr_domain, ndm_ip_sockaddr_is_v4, ndm_ip_sockaddr_is_v6, a4, a6]
  · intro h
    apply h4
    by_cases a : inp.sin_family be = AF_INET
    · simp [ndm_ip_sockaddr_assign, a] at h
      rw [← h, family_memcpy_in, a]
    · simp [ndm_ip_sockaddr_assign, a] at h
  · intro h
    apply h6
    by_cases a : inp6.sin6_family be = AF_INET6
    · simp [ndm_ip_sockaddr_assign6, a] at h
      rw [← h, family_memcpy_in6, a]
    · simp [ndm_ip_sockaddr_assign6, a] at h

/-- C6, at `2001:db8::1` (returns `PF_INET6`) and at a zeroed object
(aborts). -/
theorem domain_by_family_witness :
    ndm_ip_sockaddr_domain false false (sample_v6 false) = some 10 ∧
      ndm_ip_sockaddr_domain false false zeroed = none :=
  ⟨(domain_by_family false (sample_v6 false) zeroed (sample_in false) (sample_in6 false)).2.1
      (by decide),
    (domain_by_family false zeroed zeroed (sample_in false) (sample_in6 false)).2.2.1.2
      ⟨by decide, by decide⟩⟩

/-! ## C7 -/

/-- C7: `ndm_ip_sockaddr_size` returns `sizeof(struct sockaddr_in)` for
family `AF_INET` and `sizeof(struct sockaddr_in6)` for family `AF_INET6`;
on a value built by `ndm_ip_sockaddr_assign` (resp. `assign6`) from a source
of the right family it returns the number `n` of bytes the constructor wrote:
the first `n` bytes of the value are the whole source and the bytes from
offset `n` on are those the destination held before. -/
theorem size_is_bytes_written (ndebug be : Bool) (sa dst : ndm_ip_sockaddr_t)
    (inp : sockaddr_in) (inp6 : sockaddr_in6) :
    (ndm_ip_sockaddr_family be sa = AF_INET →
        ndm_ip_sockaddr_size ndebug be sa = some sizeof_sockaddr_in) ∧
      (ndm_ip_sockaddr_family be sa = AF_INET6 →
        ndm_ip_sockaddr_size ndebug be sa = some sizeof_sockaddr_in6) ∧
      (inp.sin_family be = AF_INET →
        ∃ r n, ndm_ip_sockaddr_assign ndebug be dst inp = Exec.done r ∧
          ndm_ip_sockaddr_size ndebug be r = some n ∧ n = inp.val.length ∧
          r.val.take n = inp.val ∧ r.val.drop n = dst.val.drop n) ∧
      (inp6.sin6_family be = AF_INET6 →
        ∃ r n, ndm_ip_sockaddr_assign6 ndebug be dst inp6 = Exec.done r ∧
          ndm_ip_sockaddr_size ndebug be r = some n ∧ n = inp6.val.length ∧
          r.val.take n = inp6.val ∧ r.val.drop n = dst.val.drop n) := by
  have l4 : inp.val.length = 16 := inp.property
  have l6 : inp6.val.length = 28 := inp6.property
  have s4 : ∀ x : ndm_ip_sockaddr_t, ndm_ip_sockaddr_family be x = AF_INET →
      ndm_ip_sockaddr_size ndebug be x = some sizeof_sockaddr_in := by
    intro x h
    simp [ndm_ip_sockaddr_size, ndm_ip_sockaddr_is_v4, h]
  have s6 : ∀ x : ndm_ip_sockaddr_t, ndm_ip_sockaddr_family be x = AF_INET6 →
      ndm_ip_sockaddr_size ndebug be x = some sizeof_sockaddr_in6 := by
    intro x h
    simp [ndm_ip_sockaddr_size, ndm_ip_sockaddr_is_v4, ndm_ip_sockaddr_is_v6, h,
      AF_INET, AF_INET6]
  refine ⟨s4 sa, s6 sa, ?_, ?_⟩
  · intro h
    refine ⟨memcpy_in dst inp, sizeof_sockaddr_in, ?_, ?_, ?_, ?_, ?_⟩
    · simp [ndm_ip_sockaddr_assign, h]
    · exact s4 _ (by rw [family_memcpy_in, h])
    · exact l4.symm
    · show (memcpy dst.val inp.val sizeof_sockaddr_in).take sizeof_sockaddr_in = inp.val
      rw [take_memcpy _ _ _ (by omega)]
      exact List.take_of_length_le (by omega)
    · exact drop_memcpy _ _ _ (by omega)
  · intro h
    refine ⟨memcpy_in6 dst inp6, sizeof_sockaddr_in6, ?_, ?_, ?_, ?_, ?_⟩
    · simp [ndm_ip_sockaddr_assign6, h]
    · exact s6 _ (by rw [family_memcpy_in6, h])
    · exact l6.symm
    · show (memcpy dst.val inp6.val sizeof_sockaddr_in6).take sizeof_sockaddr_in6 = inp6.val
      rw [take_memcpy _ _ _ (by omega)]
      exact List.take_of_length_le (by omega)
    · exact drop_memcpy _ _ _ (by omega)

/-- C7, at `192.0.2.1` port 80 assigned over an object filled with `0xAA`:
the size is 16, the length of the source. -/
theorem size_is_bytes_written_witness :
    ∃ r n, ndm_ip_sockaddr_assign false false filled (sample_in false) = Exec.done r ∧
      ndm_ip_sockaddr_size false false r = some n ∧ n = (sample_in false).val.length ∧
      r.val.take n = (sample_in false).val ∧ r.val.drop n = filled.val.drop n :=
  (size_is_bytes_written false false filled filled (sample_in false) (sample_in6 false)).2.2.1
    (by decide)

/-! ## C8 -/

/-- C8: `is_v4` is true exactly for family `AF_INET`, `is_v6` exactly for
family `AF_INET6`; they are never both true, and exactly one of them is true
when the family is `AF_INET` or `AF_INET6`. -/
theorem is_v4_is_v6_by_family (be : Bool) (sa : ndm_ip_sockaddr_t) :
    (ndm_ip_sockaddr_is_v4 be sa = true ↔ ndm_ip_sockaddr_family be sa = AF_INET) ∧
      (ndm_ip_sockaddr_is_v6 be sa = true ↔ ndm_ip_sockaddr_family be sa = AF_INET6) ∧
      ¬ (ndm_ip_sockaddr_is_v4 be sa = true ∧ ndm_ip_sockaddr_is_v6 be sa = true) ∧
      (ndm_ip_sockaddr_family be sa = AF_INET ∨ ndm_ip_sockaddr_family be sa = AF_INET6 →
        (ndm_ip_sockaddr_is_v4 be sa = true ∧ ndm_ip_sockaddr_is_v6 be sa = false) ∨
          (ndm_ip_sockaddr_is_v4 be sa = false ∧ ndm_ip_sockaddr_is_v6 be sa = true)) := by
  refine ⟨is_v4_iff be sa, is_v6_iff be sa, ?_, ?_⟩
  · rintro ⟨h4, h6⟩
    rw [is_v4_iff] at h4
    rw [is_v6_iff, h4] at h6
    exact AF_INET_ne_AF_INET6 h6
  · rintro (h | h)
    · left
      simp [ndm_ip_sockaddr_is_v4, ndm_ip_sockaddr_is_v6, h, AF_INET, AF_INET6]
    · right
      simp [ndm_ip_sockaddr_is_v4, ndm_ip_sockaddr_is_v6, h, AF_INET, AF_INET6]

/-- C8, at `2001:db8::1`: `is_v6` is true and `is_v4` is false. -/
theorem is_v4_is_v6_by_family_witness :
    (ndm_ip_sockaddr_is_v4 false (sample_v6 false) = true ∧
        ndm_ip_sockaddr_is_v6 false (sample_v6 false) = false) ∨
      (ndm_ip_sockaddr_is_v4 false (sample_v6 false) = false ∧
        ndm_ip_sockaddr_is_v6 false (sample_v6 false) = true) :=
  (is_v4_is_v6_by_family false (sample_v6 false)).2.2.2 (Or.inr (by decide))

/-! ## C9 -/

theorem field_drop (m : List Byte) (a b : Nat) :
    (field m 0 (a + b)).drop a = field m a b := by
  simp [field, List.drop_take]

theorem field_append_mid (l1 l2 l3 : List Byte) (off len : Nat)
    (h1 : l1.length = off) (h2 : l2.length = len) :
    field (l1 ++ (l2 ++ l3)) off len = l2 := by
  unfold field
  rw [List.drop_left' h1, List.take_left' h2]

theorem length_field (m : List Byte) (off len : Nat) (h : off + len ≤ m.length) :
    (field m off len).length = len := by
  simp [field, List.length_take, List.length_drop]
  omega

/-- C9: `ndm_ip_sockaddr_is_v4_mapped` and `ndm_ip_sockaddr_is_v4_compat` are
never both true, and both are false on every value of family `AF_INET`. -/
theorem v4_mapped_compat_exclusive (be : Bool) (sa : ndm_ip_sockaddr_t) :
    ¬ (ndm_ip_sockaddr_is_v4_mapped be sa = true ∧
        ndm_ip_sockaddr_is_v4_compat be sa = true) ∧
      (ndm_ip_sockaddr_family be sa = AF_INET →
        ndm_ip_sockaddr_is_v4_mapped be sa = false ∧
          ndm_ip_sockaddr_is_v4_compat be sa = false) := by
  constructor
  · rintro ⟨hm, hc⟩
    simp only [ndm_ip_sockaddr_is_v4_mapped, ndm_ip_sockaddr_is_v4_compat,
      Bool.and_eq_true, beq_iff_eq] at hm hc
    have h1 := field_drop (un_in6 sa).sin6_addr 10 2
    rw [hc.2.1, hm.2.2] at h1
    revert h1
    decide
  · intro h
    have h6 : ndm_ip_sockaddr_is_v6 be sa = false := by
      simp [ndm_ip_sockaddr_is_v6, h, AF_INET, AF_INET6]
    simp [ndm_ip_sockaddr_is_v4_mapped, ndm_ip_sockaddr_is_v4_compat, h6]

/-- C9, at `::ffff:192.0.2.1`, which is v4-mapped and hence not
v4-compatible. -/
theorem v4_mapped_compat_exclusive_witness :
    ndm_ip_sockaddr_is_v4_mapped false (sample_mapped false) = true ∧
      ndm_ip_sockaddr_is_v4_compat false (sample_mapped false) ≠ true :=
  ⟨by decide, fun h =>
    (v4_mapped_compat_exclusive false (sample_mapped false)).1 ⟨by decide, h⟩⟩

/-! ## C10 -/

theorem family_embedded_v4 (be : Bool) (sa : ndm_ip_sockaddr_t) :
    (embedded_v4 be sa).sin_family be = AF_INET := by
  cases be <;> simp [embedded_v4, sockaddr_in.sin_family, get16, put16, AF_INET] <;> decide

theorem length_sin6_port (sa : ndm_ip_sockaddr_t) : (un_in6 sa).sin6_port.length = 2 :=
  length_field _ _ _ (by rw [(un_in6 sa).property]; decide)

theorem length_put16 (be : Bool) (v : Nat) : (put16 be v).length = 2 := by
  cases be <;> simp [put16]

theorem port_embedded_v4 (be : Bool) (sa : ndm_ip_sockaddr_t) :
    (embedded_v4 be sa).sin_port = (un_in6 sa).sin6_port :=
  field_append_mid _ _ _ 2 2 (length_put16 be AF_INET) (length_sin6_port sa)

theorem addr_embedded_v4 (be : Bool) (sa : ndm_ip_sockaddr_t) :
    (embedded_v4 be sa).sin_addr = field (un_in6 sa).sin6_addr 12 4 := by
  have ha : (un_in6 sa).sin6_addr.length = 16 :=
    length_field _ _ _ (by rw [(un_in6 sa).property]; decide)
  show field (put16 be AF_INET ++ ((un_in6 sa).sin6_port ++
    (field (un_in6 sa).sin6_addr 12 4 ++ List.replicate 8 0))) 4 4 = _
  rw [← List.append_assoc]
  refine field_append_mid _ _ _ 4 4 ?_ (length_field _ _ _ (by omega))
  rw [List.length_append, length_put16, length_sin6_port]

/-- C10: `ndm_ip_sockaddr_get_v4` returns true if and only if `sa` is IPv4,
v4-mapped or v4-compatible; when it returns true `sa4` has family `AF_INET`,
the port of `sa`, and as address the 4 address bytes of an IPv4 `sa` or the
low 4 address bytes of an IPv6 `sa`; when it returns false `sa4` is
unchanged. -/
theorem get_v4_result (be : Bool) (sa sa4 : ndm_ip_sockaddr_t) :
    ((ndm_ip_sockaddr_get_v4 be sa sa4).1 = true ↔
        ndm_ip_sockaddr_is_v4 be sa = true ∨ ndm_ip_sockaddr_is_v4_mapped be sa = true ∨
          ndm_ip_sockaddr_is_v4_compat be sa = true) ∧
      ((ndm_ip_sockaddr_get_v4 be sa sa4).1 = true →
        ndm_ip_sockaddr_family be (ndm_ip_sockaddr_get_v4 be sa sa4).2 = AF_INET ∧
          (un_in (ndm_ip_sockaddr_get_v4 be sa sa4).2).sin_port =
            (if ndm_ip_sockaddr_is_v4 be sa then (un_in sa).sin_port
              else (un_in6 sa).sin6_port) ∧
          (un_in (ndm_ip_sockaddr_get_v4 be sa sa4).2).sin_addr =
            (if ndm_ip_sockaddr_is_v4 be sa then (un_in sa).sin_addr
              else field (un_in6 sa).sin6_addr 12 4)) ∧
      ((ndm_ip_sockaddr_get_v4 be sa sa4).1 = false →
        (ndm_ip_sockaddr_get_v4 be sa sa4).2 = sa4) := by
  by_cases h4 : ndm_ip_sockaddr_is_v4 be sa = true
  · have hf : (un_in sa).sin_family be = AF_INET := by
      have := (is_v4_iff be sa).1 h4
      simpa [ndm_ip_sockaddr_family, sockaddr_in.sin_family, un_in, get16] using this
    simp [ndm_ip_sockaddr_get_v4, h4, family_memcpy_in, un_in_memcpy_in, hf]
  · by_cases hmc : (ndm_ip_sockaddr_is_v4_mapped be sa || ndm_ip_sockaddr_is_v4_compat be sa) = true
    · have hmc2 := hmc
      rw [Bool.or_eq_true] at hmc2
      simp [ndm_ip_sockaddr_get_v4, h4, hmc, hmc2, family_memcpy_in, un_in_memcpy_in,
        family_embedded_v4, port_embedded_v4, addr_embedded_v4]
    · have hmc2 := hmc
      rw [Bool.or_eq_true, not_or] at hmc2
      simp [ndm_ip_sockaddr_get_v4, h4, hmc, hmc2.1, hmc2.2]

/-- C10, at `::ffff:192.0.2.1` port 443 converted into an object filled
with `0xAA`, and at `2001:db8::1`, which is not convertible. -/
theorem get_v4_result_witness :
    ((ndm_ip_sockaddr_get_v4 false (sample_mapped false) filled).1 = true ∧
        ndm_ip_sockaddr_family false
          (ndm_ip_sockaddr_get_v4 false (sample_mapped false) filled).2 = AF_INET ∧
        (un_in (ndm_ip_sockaddr_get_v4 false (sample_mapped false) filled).2).sin_port
          = [1, 187] ∧
        (un_in (ndm_ip_sockaddr_get_v4 false (sample_mapped false) filled).2).sin_addr
          = [192, 0, 2, 1]) ∧
      (ndm_ip_sockaddr_get_v4 false (sample_v6 false) filled).1 = false ∧
      (ndm_ip_sockaddr_get_v4 false (sample_v6 false) filled).2 = filled := by
  have hm := get_v4_result false (sample_mapped false) filled
  have h6 := get_v4_result false (sample_v6 false) filled
  have ht : (ndm_ip_sockaddr_get_v4 false (sample_mapped false) filled).1 = true :=
    hm.1.2 (Or.inr (Or.inl (by decide)))
  have hf : (ndm_ip_sockaddr_get_v4 false (sample_v6 false) filled).1 = false := by
    have hn := not_congr h6.1
    simpa using hn.2 (by decide)
  obtain ⟨a, b, c⟩ := hm.2.1 ht
  refine ⟨⟨ht, a, ?_, ?_⟩, hf, h6.2.2 hf⟩
  · rw [b]; decide
  · rw [c]; decide

/-! ## C11 -/

theorem is_equal_iff (be : Bool) (a b : ndm_ip_sockaddr_t) :
    ndm_ip_sockaddr_is_equal be a b = true ↔
      ndm_ip_sockaddr_family be a = ndm_ip_sockaddr_family be b ∧
        address_bytes be a = address_bytes be b ∧
        ndm_ip_sockaddr_port a = ndm_ip_sockaddr_port b := by
  simp only [ndm_ip_sockaddr_is_equal, Bool.and_eq_true, beq_iff_eq]

theorem address_is_equal_iff (be : Bool) (a b : ndm_ip_sockaddr_t) :
    ndm_ip_sockaddr_address_is_equal be a b = true ↔
      ndm_ip_sockaddr_family be a = ndm_ip_sockaddr_family be b ∧
        address_bytes be a = address_bytes be b := by
  simp only [ndm_ip_sockaddr_address_is_equal, Bool.and_eq_true, beq_iff_eq]

/-- C11: `ndm_ip_sockaddr_is_equal` and `ndm_ip_sockaddr_address_is_equal`
are each reflexive, symmetric and transitive over all socket-address
values. -/
theorem is_equal_equivalences (be : Bool) (a b c : ndm_ip_sockaddr_t) :
    (ndm_ip_sockaddr_is_equal be a a = true ∧
        (ndm_ip_sockaddr_is_equal be a b = true → ndm_ip_sockaddr_is_equal be b a = true) ∧
        (ndm_ip_sockaddr_is_equal be a b = true → ndm_ip_sockaddr_is_equal be b c = true →
          ndm_ip_sockaddr_is_equal be a c = true)) ∧
      (ndm_ip_sockaddr_address_is_equal be a a = true ∧
        (ndm_ip_sockaddr_address_is_equal be a b = true →
          ndm_ip_sockaddr_address_is_equal be b a = true) ∧
        (ndm_ip_sockaddr_address_is_equal be a b = true →
          ndm_ip_sockaddr_address_is_equal be b c = true →
          ndm_ip_sockaddr_address_is_equal be a c = true)) := by
  refine ⟨⟨?_, ?_, ?_⟩, ⟨?_, ?_, ?_⟩⟩
  · exact (is_equal_iff be a a).2 ⟨rfl, rfl, rfl⟩
  · intro h
    obtain ⟨h1, h2, h3⟩ := (is_equal_iff be a b).1 h
    exact (is_equal_iff be b a).2 ⟨h1.symm, h2.symm, h3.symm⟩
  · intro h k
    obtain ⟨h1, h2, h3⟩ := (is_equal_iff be a b).1 h
    obtain ⟨k1, k2, k3⟩ := (is_equal_iff be b c).1 k
    exact (is_equal_iff be a c).2 ⟨h1.trans k1, h2.trans k2, h3.trans k3⟩
  · exact (address_is_equal_iff be a a).2 ⟨rfl, rfl⟩
  · intro h
    obtain ⟨h1, h2⟩ := (address_is_equal_iff be a b).1 h
    exact (address_is_equal_iff be b a).2 ⟨h1.symm, h2.symm⟩
  · intro h k
    obtain ⟨h1, h2⟩ := (address_is_equal_iff be a b).1 h
    obtain ⟨k1, k2⟩ := (address_is_equal_iff be b c).1 k
    exact (address_is_equal_iff be a c).2 ⟨h1.trans k1, h2.trans k2⟩

/-- C11, at `192.0.2.1` port 80 stored over a zeroed object and over an
object filled with `0xAA`: the two are equal, in both directions. -/
theorem is_equal_equivalences_witness :
    ndm_ip_sockaddr_is_equal false (sample_v4 false) (sample_v4_over_filled false) = true ∧
      ndm_ip_sockaddr_is_equal false (sample_v4_over_filled false) (sample_v4 false) = true ∧
      ndm_ip_sockaddr_address_is_equal false (sample_v4_over_filled false) (sample_v4 false)
        = true :=
  ⟨by decide,
    (is_equal_equivalences false (sample_v4 false) (sample_v4_over_filled false)
      (sample_v4 false)).1.2.1 (by decide),
    (is_equal_equivalences false (sample_v4 false) (sample_v4_over_filled false)
      (sample_v4 false)).2.2.1 (by decide)⟩

/-! ## C12 -/

/-- C12: for `f` either `AF_INET` or `AF_INET6`, `ndm_ip_sockaddr_get_any(f)`
returns a constant of family `f`, with all address bytes zero and port 0, on
which `ndm_ip_sockaddr_is_any` and `ndm_ip_sockaddr_address_is_any` are both
true. -/
theorem is_any_of_get_any (ndebug be : Bool) (f : Nat)
    (hf : f = AF_INET ∨ f = AF_INET6) :
    ∃ r, ndm_ip_sockaddr_get_any ndebug f = some r ∧
      ndm_ip_sockaddr_is_any be (r.deref be) = true ∧
      ndm_ip_sockaddr_address_is_any be (r.deref be) = true ∧
      ndm_ip_sockaddr_family be (r.deref be) = f ∧
      ndm_ip_sockaddr_port (r.deref be) = 0 ∧
      address_bytes be (r.deref be)
        = List.replicate (if f = AF_INET then 4 else 16) 0 := by
  rcases hf with h | h
  · subst h
    refine ⟨AnyRef.NDM_IP_SOCKADDR_ANY, ?_, ?_⟩
    · cases ndebug <;> decide
    · cases be <;> decide
  · subst h
    refine ⟨AnyRef.NDM_IP_SOCKADDR_ANY6, ?_, ?_⟩
    · cases ndebug <;> decide
    · cases be <;> decide

/-- C12, at family `AF_INET6` on a big-endian host with assertions on. -/
theorem is_any_of_get_any_witness :
    ∃ r, ndm_ip_sockaddr_get_any false 10 = some r ∧
      ndm_ip_sockaddr_is_any true (r.deref true) = true ∧
      ndm_ip_sockaddr_address_is_any true (r.deref true) = true ∧
      ndm_ip_sockaddr_family true (r.deref true) = 10 ∧
      ndm_ip_sockaddr_port (r.deref true) = 0 ∧
      address_bytes true (r.deref true)
        = List.replicate (if 10 = AF_INET then 4 else 16) 0 :=
  is_any_of_get_any false true 10 (Or.inr rfl)

/-! ## C13 -/

theorem exists_four_cons (m : List Byte) (h : 4 ≤ m.length) :
    ∃ a b c d rest, m = a :: b :: c :: d :: rest := by
  match m, h with
  | a :: b :: c :: d :: rest, _ => exact ⟨a, b, c, d, rest, rfl⟩

theorem set_port_val (sa : ndm_ip_sockaddr_t) (p : Nat) (a b c d : Byte) (rest : List Byte)
    (h : sa.val = a :: b :: c :: d :: rest) :
    (ndm_ip_sockaddr_set_port sa p).val
      = a :: b :: Fin.ofNat (p / 256) :: Fin.ofNat p :: rest := by
  show sa.val.take 2 ++ [Fin.ofNat (p / 256), Fin.ofNat p] ++ sa.val.drop 4 = _
  rw [h]
  rfl

/-- C13: for a value `sa` of family `AF_INET` or `AF_INET6` and a port
`p < 65536`, `ndm_ip_sockaddr_port` returns `p` after
`ndm_ip_sockaddr_set_port(sa, p)`, and the family and the address bytes of
`sa` are what they were. -/
theorem port_after_set_port (be : Bool) (sa : ndm_ip_sockaddr_t) (p : Nat)
    (hfam : ndm_ip_sockaddr_family be sa = AF_INET ∨ ndm_ip_sockaddr_family be sa = AF_INET6)
    (hp : p < 65536) :
    ndm_ip_sockaddr_port (ndm_ip_sockaddr_set_port sa p) = p ∧
      ndm_ip_sockaddr_family be (ndm_ip_sockaddr_set_port sa p)
        = ndm_ip_sockaddr_family be sa ∧
      address_bytes be (ndm_ip_sockaddr_set_port sa p) = address_bytes be sa ∧
      (ndm_ip_sockaddr_family be (ndm_ip_sockaddr_set_port sa p) = AF_INET ∨
        ndm_ip_sockaddr_family be (ndm_ip_sockaddr_set_port sa p) = AF_INET6) := by
  have hl : sa.val.length = 128 := sa.property
  obtain ⟨a, b, c, d, rest, h⟩ := exists_four_cons sa.val (by omega)
  have hv := set_port_val sa p a b c d rest h
  have hport : ndm_ip_sockaddr_port (ndm_ip_sockaddr_set_port sa p) = p := by
    simp only [ndm_ip_sockaddr_port, hv, List.getD_cons_succ, List.getD_cons_zero,
      Fin.ofNat, Fin.val_mk]
    omega
  have hfamily : ndm_ip_sockaddr_family be (ndm_ip_sockaddr_set_port sa p)
      = ndm_ip_sockaddr_family be sa := by
    simp only [ndm_ip_sockaddr_family, get16, hv, h, List.getD_cons_succ, List.getD_cons_zero]
  have haddr : address_bytes be (ndm_ip_sockaddr_set_port sa p) = address_bytes be sa := by
    simp only [address_bytes, ndm_ip_sockaddr_is_v4, ndm_ip_sockaddr_is_v6, hfamily]
    simp only [un_in, un_in6, sockaddr_in.sin_addr, sockaddr_in6.sin6_addr, field, hv, h,
      List.take_succ_cons, List.drop_succ_cons, List.drop_zero]
  refine ⟨hport, hfamily, haddr, ?_⟩
  rw [hfamily]
  exact hfam

/-- C13, at `192.0.2.1` port 80 with port 8080 set on it. -/
theorem port_after_set_port_witness :
    ndm_ip_sockaddr_port (ndm_ip_sockaddr_set_port (sample_v4 false) 8080) = 8080 ∧
      ndm_ip_sockaddr_family false (ndm_ip_sockaddr_set_port (sample_v4 false) 8080)
        = ndm_ip_sockaddr_family false (sample_v4 false) ∧
      address_bytes false (ndm_ip_sockaddr_set_port (sample_v4 false) 8080)
        = address_bytes false (sample_v4 false) ∧
      (ndm_ip_sockaddr_family false (ndm_ip_sockaddr_set_port (sample_v4 false) 8080)
          = AF_INET ∨
        ndm_ip_sockaddr_family false (ndm_ip_sockaddr_set_port (sample_v4 false) 8080)
          = AF_INET6) :=
  port_after_set_port false (sample_v4 false) 8080 (Or.inl (by decide)) (by decide)

/-! ## C14 -/

theorem getD_memcpy_ge (dst src : List Byte) (n i : Nat) (d : Byte)
    (hi : n ≤ i) (hn : n ≤ src.length) :
    (memcpy dst src n).getD i d = dst.getD i d := by
  have hlen : (src.take n).length = n := by simp [List.length_take]; omega
  have hle : (src.take n).length ≤ i := by omega
  simp only [memcpy, List.getD_eq_getElem?_getD, List.getElem?_append_right hle, hlen,
    List.getElem?_drop]
  congr 2
  omega

theorem field_memcpy_high (dst src : List Byte) (n off len : Nat)
    (h : n ≤ off) (hn : n ≤ src.length) :
    field (memcpy dst src n) off len = field dst off len := by
  have hlen : (src.take n).length = n := by simp [List.length_take]; omega
  unfold field memcpy
  rw [List.drop_append_eq_append_drop, hlen, List.drop_eq_nil_of_le (by omega),
    List.nil_append, List.drop_drop]
  congr 2
  omega

theorem memcpy_memcpy (dst s1 s2 : List Byte) (n1 n2 : Nat)
    (h : n1 ≤ n2) (hn : n1 ≤ s1.length) :
    memcpy (memcpy dst s1 n1) s2 n2 = memcpy dst s2 n2 := by
  have hlen : (s1.take n1).length = n1 := by simp [List.length_take]; omega
  unfold memcpy
  rw [List.drop_append_eq_append_drop, hlen, List.drop_eq_nil_of_le (by omega),
    List.nil_append, List.drop_drop]
  congr 2
  omega

/-- C14: from a source of family `AF_INET`, `ndm_ip_sockaddr_assign` replaces
the first `sizeof(struct sockaddr_in)` bytes of the destination by the source
and leaves every byte at an offset at or beyond that size as it was; assigned
over a value that `ndm_ip_sockaddr_assign6` built, it yields a value of family
`AF_INET` whose bytes from that offset up to `sizeof(struct sockaddr_in6)` are
still those of the IPv6 source; and `ndm_ip_sockaddr_assign6` after
`ndm_ip_sockaddr_assign` yields what `ndm_ip_sockaddr_assign6` alone yields,
so nothing the earlier call wrote is left. -/
theorem assign_frame (ndebug be : Bool) (sa : ndm_ip_sockaddr_t)
    (inp : sockaddr_in) (inp6 : sockaddr_in6)
    (h4 : inp.sin_family be = AF_INET) (h6 : inp6.sin6_family be = AF_INET6) :
    (∃ r, ndm_ip_sockaddr_assign ndebug be sa inp = Exec.done r ∧
        r.val.take sizeof_sockaddr_in = inp.val ∧
        r.val.drop sizeof_sockaddr_in = sa.val.drop sizeof_sockaddr_in ∧
        ∀ i, sizeof_sockaddr_in ≤ i → r.val.getD i 0 = sa.val.getD i 0) ∧
      (∃ r6 r, ndm_ip_sockaddr_assign6 ndebug be sa inp6 = Exec.done r6 ∧
        ndm_ip_sockaddr_assign ndebug be r6 inp = Exec.done r ∧
        ndm_ip_sockaddr_family be r = AF_INET ∧
        field r.val sizeof_sockaddr_in (sizeof_sockaddr_in6 - sizeof_sockaddr_in)
          = field inp6.val sizeof_sockaddr_in (sizeof_sockaddr_in6 - sizeof_sockaddr_in)) ∧
      (∃ r4 r, ndm_ip_sockaddr_assign ndebug be sa inp = Exec.done r4 ∧
        ndm_ip_sockaddr_assign6 ndebug be r4 inp6 = Exec.done r ∧
        ndm_ip_sockaddr_assign6 ndebug be sa inp6 = Exec.done r ∧
        r.val.take sizeof_sockaddr_in6 = inp6.val) := by
  have l4 : inp.val.length = 16 := inp.property
  have l6 : inp6.val.length = 28 := inp6.property
  have e4 : ∀ x, ndm_ip_sockaddr_assign ndebug be x inp = Exec.done (memcpy_in x inp) := by
    intro x
    simp [ndm_ip_sockaddr_assign, h4]
  have e6 : ∀ x, ndm_ip_sockaddr_assign6 ndebug be x inp6 = Exec.done (memcpy_in6 x inp6) := by
    intro x
    simp [ndm_ip_sockaddr_assign6, h6]
  refine ⟨⟨memcpy_in sa inp, e4 sa, ?_, ?_, ?_⟩,
    ⟨memcpy_in6 sa inp6, memcpy_in (memcpy_in6 sa inp6) inp, e6 sa, e4 _, ?_, ?_⟩,
    ⟨memcpy_in sa inp, memcpy_in6 (memcpy_in sa inp) inp6, e4 sa, e6 _, ?_, ?_⟩⟩
  · show (memcpy sa.val inp.val sizeof_sockaddr_in).take sizeof_sockaddr_in = inp.val
    rw [take_memcpy _ _ _ (by omega)]
    exact List.take_of_length_le (by omega)
  · exact drop_memcpy _ _ _ (by omega)
  · intro i hi
    exact getD_memcpy_ge _ _ _ _ _ hi (by omega)
  · rw [family_memcpy_in, h4]
  · show field (memcpy (memcpy sa.val inp6.val sizeof_sockaddr_in6) inp.val
        sizeof_sockaddr_in) sizeof_sockaddr_in (sizeof_sockaddr_in6 - sizeof_sockaddr_in) = _
    rw [field_memcpy_high _ _ _ _ _ (le_refl _) (by omega),
      field_memcpy_low _ _ _ _ _ (by decide) (by omega)]
  · rw [e6 sa]
    congr 1
    apply Subtype.ext
    exact (memcpy_memcpy sa.val inp.val inp6.val sizeof_sockaddr_in sizeof_sockaddr_in6
      (by decide) (by omega)).symm
  · show (memcpy (memcpy sa.val inp.val sizeof_sockaddr_in) inp6.val
        sizeof_sockaddr_in6).take sizeof_sockaddr_in6 = inp6.val
    rw [take_memcpy _ _ _ (by omega)]
    exact List.take_of_length_le (by omega)

/-- C14, at `192.0.2.1` port 80 and `2001:db8::1` port 443 assigned over an
object filled with `0xAA`, on a little-endian host. -/
theorem assign_frame_witness :
    (∃ r, ndm_ip_sockaddr_assign false false filled (sample_in false) = Exec.done r ∧
        r.val.take sizeof_sockaddr_in = (sample_in false).val ∧
        r.val.drop sizeof_sockaddr_in = filled.val.drop sizeof_sockaddr_in ∧
        ∀ i, sizeof_sockaddr_in ≤ i → r.val.getD i 0 = filled.val.getD i 0) ∧
      (∃ r6 r, ndm_ip_sockaddr_assign6 false false filled (sample_in6 false) = Exec.done r6 ∧
        ndm_ip_sockaddr_assign false false r6 (sample_in false) = Exec.done r ∧
        ndm_ip_sockaddr_family false r = AF_INET ∧
        field r.val sizeof_sockaddr_in (sizeof_sockaddr_in6 - sizeof_sockaddr_in)
          = field (sample_in6 false).val sizeof_sockaddr_in
            (sizeof_sockaddr_in6 - sizeof_sockaddr_in)) ∧
      (∃ r4 r, ndm_ip_sockaddr_assign false false filled (sample_in false) = Exec.done r4 ∧
        ndm_ip_sockaddr_assign6 false false r4 (sample_in6 false) = Exec.done r ∧
        ndm_ip_sockaddr_assign6 false false filled (sample_in6 false) = Exec.done r ∧
        r.val.take sizeof_sockaddr_in6 = (sample_in6 false).val) :=
  assign_frame false false filled (sample_in false) (sample_in6 false) (by decide) (by decide)

/-! ## C15 -/

/-- C15: with assertions compiled out, a family `f` other than `AF_INET`
makes `ndm_ip_sockaddr_get_any` return the address of `NDM_IP_SOCKADDR_ANY6`,
and on a value whose family is other than `AF_INET`
`ndm_ip_sockaddr_domain` returns `PF_INET6` and `ndm_ip_sockaddr_size`
returns `sizeof(struct sockaddr_in6)`, whether or not the family is
`AF_INET6`. -/
theorem ndebug_other_family_is_v6 (be : Bool) (f : Nat) (sa : ndm_ip_sockaddr_t)
    (hf : f ≠ AF_INET) (hsa : ndm_ip_sockaddr_family be sa ≠ AF_INET) :
    ndm_ip_sockaddr_get_any true f = some AnyRef.NDM_IP_SOCKADDR_ANY6 ∧
      ndm_ip_sockaddr_domain true be sa = some PF_INET6 ∧
      ndm_ip_sockaddr_size true be sa = some sizeof_sockaddr_in6 := by
  simp [ndm_ip_sockaddr_get_any, ndm_ip_sockaddr_domain, ndm_ip_sockaddr_size, hf, hsa]

/-- C15, at family 0 (`AF_UNSPEC`) and at a zeroed object, whose family is
neither `AF_INET` nor `AF_INET6`. -/
theorem ndebug_other_family_is_v6_witness :
    (0 ≠ AF_INET6 ∧ ndm_ip_sockaddr_family false zeroed ≠ AF_INET6) ∧
      ndm_ip_sockaddr_get_any true 0 = some AnyRef.NDM_IP_SOCKADDR_ANY6 ∧
      ndm_ip_sockaddr_domain true false zeroed = some PF_INET6 ∧
      ndm_ip_sockaddr_size true false zeroed = some sizeof_sockaddr_in6 :=
  ⟨by decide, ndebug_other_family_is_v6 false 0 zeroed (by decide) (by decide)⟩

end Ndm
